import Mathlib

/-!
Verification of `src/full_speed/state.rs` of the imxrt-usbd repository:
the static descriptor arenas (queue heads and transfer descriptors), the
instance selector, the "steal" ownership-handoff operations and the
ASYNCLISTADDR register binding.

The Rust module is embedded shallowly: the two static `State` values become
one `GlobalState` record, raw pointers become natural-number addresses,
`&'static mut` references into an arena become `QhRef`/`TdRef` values
(owning instance plus slot index) whose concrete address is computed by a
linker-layout model, and the `unreachable!` panic of the instance selector
becomes `Option.none`.
-/

/-- Number of queue heads (and transfer descriptors) per instance.
Modelled from the spec: `QH_COUNT` lives in the crate root, outside the
sampled file; the spec fixes N = 16 (endpoints 0-7 times 2 directions). -/
abbrev QH_COUNT : Nat := 16

/-- Modelled from the spec: `qh::Qh` is an external fixed-size record type,
default-constructible to an all-zero state; its contents are opaque to this
layer, so we model them as a single numeric payload. -/
structure Qh where
  mem : Nat
deriving DecidableEq

/-- The zeroed queue-head record produced by `qh::Qh::new()`. -/
def Qh.new : Qh := ⟨0⟩

/-- Modelled from the spec: `td::Td` is an external fixed-size record type,
default-constructible to an all-zero state. -/
structure Td where
  mem : Nat
deriving DecidableEq

/-- The zeroed transfer-descriptor record produced by `td::Td::new()`. -/
def Td.new : Td := ⟨0⟩

/-- A list of transfer descriptors: `struct TdList([td::Td; QH_COUNT])`.
The `#[repr(align(32))]` attribute is captured by the layout model below. -/
structure TdList where
  records : Fin QH_COUNT → Td

/-- `TD_LIST_INIT`: sixteen `td::Td::new()` records. -/
def TD_LIST_INIT : TdList := ⟨fun _ => Td.new⟩

/-- A list of queue heads: `struct QhList([qh::Qh; QH_COUNT])`.
The `#[repr(align(4096))]` attribute is captured by the layout model below. -/
structure QhList where
  records : Fin QH_COUNT → Qh

/-- `QH_LIST_INIT`: sixteen `qh::Qh::new()` records. -/
def QH_LIST_INIT : QhList := ⟨fun _ => Qh.new⟩

/-- `struct State { qhs: QhList, tds: TdList }`. -/
structure State where
  qhs : QhList
  tds : TdList

/-- `STATE_INIT`. -/
def STATE_INIT : State := ⟨QH_LIST_INIT, TD_LIST_INIT⟩

/-- The two `static mut` items `USB1_STATE` and `USB2_STATE`, gathered into
one record so state-passing is explicit. -/
structure GlobalState where
  usb1_state : State
  usb2_state : State

/-- The initial global state: both statics start as `STATE_INIT`. -/
def GLOBAL_INIT : GlobalState := ⟨STATE_INIT, STATE_INIT⟩

/-- Modelled from the spec: the `ral` module exposes exactly two closed,
statically known instance addresses, one per hardware register block.
`USB1` is the register-block address of the first controller. -/
def USB1 : Nat := 0x402E0000

/-- Modelled from the spec: the register-block address of the second
controller; distinct from `USB1`. -/
def USB2 : Nat := 0x402E0200

/-- Which of the two static `State` values a selector call resolved to. -/
inductive StateId where
  | usb1
  | usb2
deriving DecidableEq

/-- The instance selector `unsafe fn state(usb)`: pointer-identity match of
the instance's register-block address against `ral::usb::USB1` and
`ral::usb::USB2`; any other address hits `unreachable!`, modelled as `none`. -/
def state (p : Nat) : Option StateId :=
  if p = USB1 then some StateId.usb1
  else if p = USB2 then some StateId.usb2
  else none

/-- Projection of the selected static: reading `state(usb)` as a value. -/
def stateOf (g : GlobalState) : StateId → State
  | StateId.usb1 => g.usb1_state
  | StateId.usb2 => g.usb2_state

/-- A `&'static mut qh::Qh` into one instance's queue-head arena, identified
by the owning instance and the slot index it points at. -/
structure QhRef where
  owner : StateId
  idx : Nat
deriving DecidableEq

/-- A `&'static mut td::Td` into one instance's transfer-descriptor arena. -/
structure TdRef where
  owner : StateId
  idx : Nat
deriving DecidableEq

/-- The loop `for (dst, src) in dst.iter_mut().zip(srcs) { *dst = Some(src) }`:
overwrite a prefix of `dst` with `some` of the zipped source elements,
stopping when either side is exhausted. -/
def fillSome {α : Type} : List α → List (Option α) → List (Option α)
  | [], dst => dst
  | _ :: _, [] => []
  | src :: srcs, _ :: dst => some src :: fillSome srcs dst

/-- `pub unsafe fn steal_qhs(usb)`: build a 16-slot all-`None` array, then
assign each slot `Some` of the corresponding `iter_mut` reference into the
selected instance's queue-head arena. The `unreachable!` inside `state` is
propagated as `none`; the global state is threaded through explicitly. -/
def steal_qhs (g : GlobalState) (p : Nat) :
    Option (List (Option QhRef) × GlobalState) :=
  match state p with
  | none => none
  | some id =>
      let qhs : List (Option QhRef) := List.replicate QH_COUNT none
      let srcs : List QhRef := (List.range QH_COUNT).map (fun i => ⟨id, i⟩)
      some (fillSome srcs qhs, g)

/-- `pub unsafe fn steal_tds(usb)`: same shape as `steal_qhs`, over the
transfer-descriptor arena. -/
def steal_tds (g : GlobalState) (p : Nat) :
    Option (List (Option TdRef) × GlobalState) :=
  match state p with
  | none => none
  | some id =>
      let tds : List (Option TdRef) := List.replicate QH_COUNT none
      let srcs : List TdRef := (List.range QH_COUNT).map (fun i => ⟨id, i⟩)
      some (fillSome srcs tds, g)

/-- Round `a` up to the next multiple of `n`. -/
def alignUp (a n : Nat) : Nat := ((a + n - 1) / n) * n

/-- The base addresses of one instance's two arenas. -/
structure ArenaLayout where
  qhBase : Nat
  tdBase : Nat

/-- A concrete placement of both statics, plus the record sizes of the two
external descriptor types. -/
structure Layout where
  usb1 : ArenaLayout
  usb2 : ArenaLayout
  qhSize : Nat
  tdSize : Nat

/-- Modelled from the spec: the linker places `USB1_STATE` then `USB2_STATE`
sequentially in static memory; inside each `State`, `#[repr(align(4096))]`
forces the `QhList` to a 4096-byte boundary and `#[repr(align(32))]` forces
the `TdList` to a 32-byte boundary, with the two arenas non-overlapping
fields of the same struct. `s` is where static memory starts; `q` and `t`
are the (positive, externally fixed) sizes of `qh::Qh` and `td::Td`. -/
def mkLayout (s q t : Nat) : Layout :=
  { usb1 :=
      { qhBase := alignUp s 4096
        tdBase := alignUp (alignUp s 4096 + QH_COUNT * q) 32 }
    usb2 :=
      { qhBase :=
          alignUp (alignUp (alignUp s 4096 + QH_COUNT * q) 32 + QH_COUNT * t) 4096
        tdBase :=
          alignUp
            (alignUp (alignUp (alignUp s 4096 + QH_COUNT * q) 32 + QH_COUNT * t) 4096
              + QH_COUNT * q) 32 }
    qhSize := q
    tdSize := t }

/-- The arena pair of one instance in a layout. -/
def arenaOf (l : Layout) : StateId → ArenaLayout
  | StateId.usb1 => l.usb1
  | StateId.usb2 => l.usb2

/-- The address a stolen queue-head reference points at: record `i` of the
owner's queue-head arena. -/
def qhRefAddr (l : Layout) (r : QhRef) : Nat :=
  (arenaOf l r.owner).qhBase + r.idx * l.qhSize

/-- The address a stolen transfer-descriptor reference points at. -/
def tdRefAddr (l : Layout) (r : TdRef) : Nat :=
  (arenaOf l r.owner).tdBase + r.idx * l.tdSize

/-- `a` falls among the `count` records of size `size` based at `base`. -/
def inArena (base size count a : Nat) : Prop :=
  base ≤ a ∧ a < base + count * size

/-- `a` falls inside either arena of the instance laid out at `il`. -/
def inArenas (il : ArenaLayout) (q t a : Nat) : Prop :=
  inArena il.qhBase q QH_COUNT a ∨ inArena il.tdBase t QH_COUNT a

instance (base size count a : Nat) : Decidable (inArena base size count a) :=
  inferInstanceAs (Decidable (_ ∧ _))

instance (il : ArenaLayout) (q t a : Nat) : Decidable (inArenas il q t a) :=
  inferInstanceAs (Decidable (_ ∨ _))

/-- The ASYNCLISTADDR registers of the two controllers. -/
structure Regs where
  usb1_ASYNCLISTADDR : Nat
  usb2_ASYNCLISTADDR : Nat
deriving DecidableEq

/-- `ral::write_reg!(ral::usb, usb, ASYNCLISTADDR, v)`: store `v` into the
selected instance's register. -/
def write_ASYNCLISTADDR (r : Regs) (id : StateId) (v : Nat) : Regs :=
  match id with
  | StateId.usb1 => { r with usb1_ASYNCLISTADDR := v }
  | StateId.usb2 => { r with usb2_ASYNCLISTADDR := v }

/-- `pub fn assign_endptlistaddr(usb)`: take the base pointer of the selected
instance's queue-head arena (`state(usb).qhs.0.as_ptr()`), cast it to `u32`,
and write it to that instance's ASYNCLISTADDR register. The selector's
`unreachable!` is propagated as `none`. -/
def assign_endptlistaddr (l : Layout) (p : Nat) (r : Regs) : Option Regs :=
  match state p with
  | none => none
  | some id => some (write_ASYNCLISTADDR r id ((arenaOf l id).qhBase % 2 ^ 32))

/-- `alignUp` lands on a multiple of the requested alignment. -/
theorem alignUp_mod (a n : Nat) : alignUp a n % n = 0 := by
  simp [alignUp, Nat.mul_mod_left]

/-- Rounding up never moves an address down. -/
theorem le_alignUp (a n : Nat) (hn : 0 < n) : a ≤ alignUp a n := by
  unfold alignUp
  have h1 := Nat.mod_add_div (a + n - 1) n
  have h2 : (a + n - 1) % n < n := Nat.mod_lt _ hn
  have h3 : (a + n - 1) / n * n = n * ((a + n - 1) / n) := Nat.mul_comm _ _
  omega

/-- `n` further consecutive calls of `assign_endptlistaddr` after a first
one, composed through the panic-propagating `Option`. -/
def assignIter (l : Layout) (p : Nat) : Nat → Regs → Option Regs
  | 0, r => assign_endptlistaddr l p r
  | n + 1, r => (assignIter l p n r).bind (assign_endptlistaddr l p)

/-- C2: on the freshly constructed state, the first call of `steal_qhs`
returns, for both instances, a sequence of length exactly 16 whose every
element is present. -/
theorem steal_qhs_first_call_all_present :
    (steal_qhs GLOBAL_INIT USB1).map
        (fun x => (x.1.length, x.1.all (fun o => o.isSome))) = some (QH_COUNT, true)
    ∧ (steal_qhs GLOBAL_INIT USB2).map
        (fun x => (x.1.length, x.1.all (fun o => o.isSome))) = some (QH_COUNT, true) :=
  ⟨rfl, rfl⟩

/-- C3: the instance selector maps `USB1` to the first static state, `USB2`
to the second (distinct) one, and every other address to the
`unreachable!` panic, modelled as `none` — no value, no new state. -/
theorem state_selector_closed_set (p : Nat) (h1 : p ≠ USB1) (h2 : p ≠ USB2) :
    state USB1 = some StateId.usb1 ∧ state USB2 = some StateId.usb2 ∧
    StateId.usb1 ≠ StateId.usb2 ∧ state p = none := by
  refine ⟨rfl, rfl, by decide, ?_⟩
  simp [state, h1, h2]

/-- Witness for C3 at the concrete out-of-set address 0. -/
theorem state_selector_closed_set_witness :
    (0 : Nat) ≠ USB1 ∧ (0 : Nat) ≠ USB2 ∧
    (state USB1 = some StateId.usb1 ∧ state USB2 = some StateId.usb2 ∧
      StateId.usb1 ≠ StateId.usb2 ∧ state 0 = none) :=
  ⟨by decide, by decide, state_selector_closed_set 0 (by decide) (by decide)⟩

/-- C1 counterexample: on the fresh state, `steal_qhs(USB1)` followed by a
second `steal_qhs(USB1)` with no intervening reset returns slot 0 as
`some` — a second reference to record 0, already issued by the first call —
and not every slot of the second result is empty. -/
theorem steal_qhs_second_call_counterexample :
    ((steal_qhs GLOBAL_INIT USB1).bind (fun x => steal_qhs x.2 USB1)).map
        (fun y => y.1.head?) = some (some (some (QhRef.mk StateId.usb1 0)))
    ∧ (steal_qhs GLOBAL_INIT USB1).map
        (fun y => y.1.head?) = some (some (some (QhRef.mk StateId.usb1 0)))
    ∧ ((steal_qhs GLOBAL_INIT USB1).bind (fun x => steal_qhs x.2 USB1)).map
        (fun y => y.1.all (fun o => o.isNone)) = some false :=
  ⟨rfl, rfl, rfl⟩

/-- C1 as amended: a second `steal_qhs` call on the same instance, without
intervening reset, returns exactly the same all-present sequence as the
first call — every previously-issued slot is re-issued as a duplicate
reference, never as an empty marker; the single-call discipline is an
unchecked obligation of the unsafe caller. -/
theorem steal_qhs_second_call_reissues (g : GlobalState) :
    ((steal_qhs g USB1).bind (fun x => steal_qhs x.2 USB1)).map (fun y => y.1)
      = (steal_qhs g USB1).map (fun y => y.1)
    ∧ ((steal_qhs g USB1).bind (fun x => steal_qhs x.2 USB1)).map
        (fun y => y.1.all (fun o => o.isSome)) = some true
    ∧ ((steal_qhs g USB2).bind (fun x => steal_qhs x.2 USB2)).map (fun y => y.1)
      = (steal_qhs g USB2).map (fun y => y.1)
    ∧ ((steal_qhs g USB2).bind (fun x => steal_qhs x.2 USB2)).map
        (fun y => y.1.all (fun o => o.isSome)) = some true :=
  ⟨rfl, rfl, rfl, rfl⟩

/-- C7: the two steal operations are independent: for both instances, a
`steal_qhs` call does not change what a following `steal_tds` returns, and
a `steal_tds` call does not change what a following `steal_qhs` returns. -/
theorem steal_ops_independent (g : GlobalState) :
    ((steal_qhs g USB1).bind (fun x => steal_tds x.2 USB1)).map (fun y => y.1)
      = (steal_tds g USB1).map (fun y => y.1)
    ∧ ((steal_tds g USB1).bind (fun x => steal_qhs x.2 USB1)).map (fun y => y.1)
      = (steal_qhs g USB1).map (fun y => y.1)
    ∧ ((steal_qhs g USB2).bind (fun x => steal_tds x.2 USB2)).map (fun y => y.1)
      = (steal_tds g USB2).map (fun y => y.1)
    ∧ ((steal_tds g USB2).bind (fun x => steal_qhs x.2 USB2)).map (fun y => y.1)
      = (steal_qhs g USB2).map (fun y => y.1) :=
  ⟨rfl, rfl, rfl, rfl⟩

/-- C9: `assign_endptlistaddr` is idempotent: any number of further
consecutive calls leaves the registers exactly as one call does, for every
layout, every instance address (panic included) and every starting
register file. -/
theorem assign_endptlistaddr_idempotent (l : Layout) (p : Nat) (n : Nat) (r : Regs) :
    assignIter l p n r = assign_endptlistaddr l p r := by
  induction n with
  | zero => rfl
  | succ n ih =>
      show (assignIter l p n r).bind (assign_endptlistaddr l p)
          = assign_endptlistaddr l p r
      rw [ih]
      unfold assign_endptlistaddr
      cases hs : state p with
      | none => rfl
      | some id => cases id <;> rfl

/-- C10: neither steal operation writes to any descriptor record: for both
instances the global state coming out of `steal_qhs` and `steal_tds` is
exactly the state that went in, and on the fresh state every record of both
arenas still holds its zeroed `new()` value. -/
theorem steal_ops_preserve_records :
    (∀ g : GlobalState,
      (steal_qhs g USB1).map Prod.snd = some g ∧
      (steal_qhs g USB2).map Prod.snd = some g ∧
      (steal_tds g USB1).map Prod.snd = some g ∧
      (steal_tds g USB2).map Prod.snd = some g) ∧
    (∀ i : Fin QH_COUNT,
      (stateOf GLOBAL_INIT StateId.usb1).qhs.records i = Qh.new ∧
      (stateOf GLOBAL_INIT StateId.usb1).tds.records i = Td.new ∧
      (stateOf GLOBAL_INIT StateId.usb2).qhs.records i = Qh.new ∧
      (stateOf GLOBAL_INIT StateId.usb2).tds.records i = Td.new) :=
  ⟨fun _ => ⟨rfl, rfl, rfl, rfl⟩, fun _ => ⟨rfl, rfl, rfl, rfl⟩⟩

/-- The selector resolves `USB1` to the first static. -/
theorem state_USB1 : state USB1 = some StateId.usb1 := rfl

/-- The selector resolves `USB2` to the second static. -/
theorem state_USB2 : state USB2 = some StateId.usb2 := rfl

/-- C4: in every linker placement of the two statics, the queue-head arena
base of each instance is a multiple of 4096 and the transfer-descriptor
arena base a multiple of 32, by the `repr(align)` construction. -/
theorem arena_bases_aligned (s q t : Nat) :
    (mkLayout s q t).usb1.qhBase % 4096 = 0
    ∧ (mkLayout s q t).usb1.tdBase % 32 = 0
    ∧ (mkLayout s q t).usb2.qhBase % 4096 = 0
    ∧ (mkLayout s q t).usb2.tdBase % 32 = 0 :=
  ⟨alignUp_mod _ _, alignUp_mod _ _, alignUp_mod _ _, alignUp_mod _ _⟩

/-- C5: `assign_endptlistaddr` writes exactly the selected instance's
queue-head arena base — the address of slot zero — into that instance's
ASYNCLISTADDR register, and leaves the other instance's register untouched. -/
theorem assign_endptlistaddr_writes_base (l : Layout) (r : Regs)
    (h1 : l.usb1.qhBase < 2 ^ 32) (h2 : l.usb2.qhBase < 2 ^ 32) :
    (assign_endptlistaddr l USB1 r).map
        (fun r2 => (r2.usb1_ASYNCLISTADDR, r2.usb2_ASYNCLISTADDR))
      = some (l.usb1.qhBase, r.usb2_ASYNCLISTADDR)
    ∧ (assign_endptlistaddr l USB2 r).map
        (fun r2 => (r2.usb1_ASYNCLISTADDR, r2.usb2_ASYNCLISTADDR))
      = some (r.usb1_ASYNCLISTADDR, l.usb2.qhBase)
    ∧ qhRefAddr l (QhRef.mk StateId.usb1 0) = l.usb1.qhBase
    ∧ qhRefAddr l (QhRef.mk StateId.usb2 0) = l.usb2.qhBase := by
  have h1' : l.usb1.qhBase < 4294967296 := h1
  have h2' : l.usb2.qhBase < 4294967296 := h2
  refine ⟨?_, ?_, ?_, ?_⟩
  · simp [assign_endptlistaddr, state_USB1, write_ASYNCLISTADDR, arenaOf,
      Nat.mod_eq_of_lt h1']
  · simp [assign_endptlistaddr, state_USB2, write_ASYNCLISTADDR, arenaOf,
      Nat.mod_eq_of_lt h2']
  · simp [qhRefAddr, arenaOf]
  · simp [qhRefAddr, arenaOf]

/-- Witness for C5 at a concrete layout and register file. -/
theorem assign_endptlistaddr_writes_base_witness :
    (mkLayout 0 64 32).usb1.qhBase < 2 ^ 32
    ∧ (mkLayout 0 64 32).usb2.qhBase < 2 ^ 32
    ∧ ((assign_endptlistaddr (mkLayout 0 64 32) USB1 (Regs.mk 0 0)).map
          (fun r2 => (r2.usb1_ASYNCLISTADDR, r2.usb2_ASYNCLISTADDR))
        = some ((mkLayout 0 64 32).usb1.qhBase, (Regs.mk 0 0).usb2_ASYNCLISTADDR)
      ∧ (assign_endptlistaddr (mkLayout 0 64 32) USB2 (Regs.mk 0 0)).map
          (fun r2 => (r2.usb1_ASYNCLISTADDR, r2.usb2_ASYNCLISTADDR))
        = some ((Regs.mk 0 0).usb1_ASYNCLISTADDR, (mkLayout 0 64 32).usb2.qhBase)
      ∧ qhRefAddr (mkLayout 0 64 32) (QhRef.mk StateId.usb1 0)
        = (mkLayout 0 64 32).usb1.qhBase
      ∧ qhRefAddr (mkLayout 0 64 32) (QhRef.mk StateId.usb2 0)
        = (mkLayout 0 64 32).usb2.qhBase) :=
  ⟨by decide, by decide,
    assign_endptlistaddr_writes_base (mkLayout 0 64 32) (Regs.mk 0 0)
      (by decide) (by decide)⟩

/-- C8: `steal_qhs` returns, slot by slot, `some` reference to record `i` of
the selected instance's queue-head arena, for both instances; in every
linker placement with a positive record size, distinct slots have distinct
addresses and every slot's address lies inside that instance's arena. -/
theorem steal_qhs_refs_distinct_in_bounds (s q t : Nat) (id : StateId)
    (i j : Nat) (hq : 0 < q) (hi : i < QH_COUNT) (hj : j < QH_COUNT)
    (hij : i ≠ j) :
    (steal_qhs GLOBAL_INIT USB1).map (fun x => x.1)
        = some ((List.range QH_COUNT).map (fun k => some (QhRef.mk StateId.usb1 k)))
    ∧ (steal_qhs GLOBAL_INIT USB2).map (fun x => x.1)
        = some ((List.range QH_COUNT).map (fun k => some (QhRef.mk StateId.usb2 k)))
    ∧ qhRefAddr (mkLayout s q t) (QhRef.mk id i)
        ≠ qhRefAddr (mkLayout s q t) (QhRef.mk id j)
    ∧ inArena (arenaOf (mkLayout s q t) id).qhBase q QH_COUNT
        (qhRefAddr (mkLayout s q t) (QhRef.mk id i))
    ∧ inArena (arenaOf (mkLayout s q t) id).qhBase q QH_COUNT
        (qhRefAddr (mkLayout s q t) (QhRef.mk id j)) := by
  refine ⟨rfl, rfl, ?_, ?_, ?_⟩
  · intro heq
    have h' : (arenaOf (mkLayout s q t) id).qhBase + i * q
        = (arenaOf (mkLayout s q t) id).qhBase + j * q := heq
    have hb : i * q = j * q := by omega
    exact hij (Nat.eq_of_mul_eq_mul_right hq hb)
  · show (arenaOf (mkLayout s q t) id).qhBase
        ≤ (arenaOf (mkLayout s q t) id).qhBase + i * q
      ∧ (arenaOf (mkLayout s q t) id).qhBase + i * q
        < (arenaOf (mkLayout s q t) id).qhBase + 16 * q
    have hi' : i + 1 ≤ 16 := hi
    have h16 : (i + 1) * q ≤ 16 * q := Nat.mul_le_mul_right q hi'
    have hexp : (i + 1) * q = i * q + q := by ring
    omega
  · show (arenaOf (mkLayout s q t) id).qhBase
        ≤ (arenaOf (mkLayout s q t) id).qhBase + j * q
      ∧ (arenaOf (mkLayout s q t) id).qhBase + j * q
        < (arenaOf (mkLayout s q t) id).qhBase + 16 * q
    have hj' : j + 1 ≤ 16 := hj
    have h16 : (j + 1) * q ≤ 16 * q := Nat.mul_le_mul_right q hj'
    have hexp : (j + 1) * q = j * q + q := by ring
    omega

/-- Witness for C8 at a concrete layout, instance and slot pair. -/
theorem steal_qhs_refs_distinct_in_bounds_witness :
    0 < 64 ∧ 0 < QH_COUNT ∧ 1 < QH_COUNT ∧ (0 : Nat) ≠ 1
    ∧ ((steal_qhs GLOBAL_INIT USB1).map (fun x => x.1)
          = some ((List.range QH_COUNT).map (fun k => some (QhRef.mk StateId.usb1 k)))
      ∧ (steal_qhs GLOBAL_INIT USB2).map (fun x => x.1)
          = some ((List.range QH_COUNT).map (fun k => some (QhRef.mk StateId.usb2 k)))
      ∧ qhRefAddr (mkLayout 0 64 32) (QhRef.mk StateId.usb1 0)
          ≠ qhRefAddr (mkLayout 0 64 32) (QhRef.mk StateId.usb1 1)
      ∧ inArena (arenaOf (mkLayout 0 64 32) StateId.usb1).qhBase 64 QH_COUNT
          (qhRefAddr (mkLayout 0 64 32) (QhRef.mk StateId.usb1 0))
      ∧ inArena (arenaOf (mkLayout 0 64 32) StateId.usb1).qhBase 64 QH_COUNT
          (qhRefAddr (mkLayout 0 64 32) (QhRef.mk StateId.usb1 1))) :=
  ⟨by decide, by decide, by decide, by decide,
    steal_qhs_refs_distinct_in_bounds 0 64 32 StateId.usb1 0 1
      (by decide) (by decide) (by decide) (by decide)⟩

/-- C6: in every linker placement with positive record sizes, no address
lies in both instances' arenas, and every reference stolen for one instance
points inside that instance's own arenas and outside the other's, for both
instances and for both record kinds. -/
theorem instance_arenas_disjoint (s q t a i : Nat)
    (hq : 0 < q) (ht : 0 < t) (hi : i < QH_COUNT) :
    ¬ (inArenas (mkLayout s q t).usb1 q t a ∧ inArenas (mkLayout s q t).usb2 q t a)
    ∧ (inArenas (mkLayout s q t).usb1 q t
          (qhRefAddr (mkLayout s q t) (QhRef.mk StateId.usb1 i))
        ∧ ¬ inArenas (mkLayout s q t).usb2 q t
          (qhRefAddr (mkLayout s q t) (QhRef.mk StateId.usb1 i)))
    ∧ (inArenas (mkLayout s q t).usb1 q t
          (tdRefAddr (mkLayout s q t) (TdRef.mk StateId.usb1 i))
        ∧ ¬ inArenas (mkLayout s q t).usb2 q t
          (tdRefAddr (mkLayout s q t) (TdRef.mk StateId.usb1 i)))
    ∧ (inArenas (mkLayout s q t).usb2 q t
          (qhRefAddr (mkLayout s q t) (QhRef.mk StateId.usb2 i))
        ∧ ¬ inArenas (mkLayout s q t).usb1 q t
          (qhRefAddr (mkLayout s q t) (QhRef.mk StateId.usb2 i)))
    ∧ (inArenas (mkLayout s q t).usb2 q t
          (tdRefAddr (mkLayout s q t) (TdRef.mk StateId.usb2 i))
        ∧ ¬ inArenas (mkLayout s q t).usb1 q t
          (tdRefAddr (mkLayout s q t) (TdRef.mk StateId.usb2 i))) := by
  have hAB : alignUp s 4096 + 16 * q ≤ alignUp (alignUp s 4096 + 16 * q) 32 :=
    le_alignUp _ _ (by norm_num)
  have hBC : alignUp (alignUp s 4096 + 16 * q) 32 + 16 * t
      ≤ alignUp (alignUp (alignUp s 4096 + 16 * q) 32 + 16 * t) 4096 :=
    le_alignUp _ _ (by norm_num)
  have hCD : alignUp (alignUp (alignUp s 4096 + 16 * q) 32 + 16 * t) 4096 + 16 * q
      ≤ alignUp
          (alignUp (alignUp (alignUp s 4096 + 16 * q) 32 + 16 * t) 4096 + 16 * q)
          32 :=
    le_alignUp _ _ (by norm_num)
  have hi' : i + 1 ≤ 16 := hi
  have hiq : (i + 1) * q ≤ 16 * q := Nat.mul_le_mul_right q hi'
  have hit : (i + 1) * t ≤ 16 * t := Nat.mul_le_mul_right t hi'
  have hiq' : (i + 1) * q = i * q + q := by ring
  have hit' : (i + 1) * t = i * t + t := by ring
  simp only [mkLayout, inArenas, inArena, qhRefAddr, tdRefAddr, arenaOf, QH_COUNT]
  omega

/-- Witness for C6 at a concrete layout, probe address and slot. -/
theorem instance_arenas_disjoint_witness :
    0 < 64 ∧ 0 < 32 ∧ 0 < QH_COUNT
    ∧ (¬ (inArenas (mkLayout 0 64 32).usb1 64 32 0
            ∧ inArenas (mkLayout 0 64 32).usb2 64 32 0)
      ∧ (inArenas (mkLayout 0 64 32).usb1 64 32
            (qhRefAddr (mkLayout 0 64 32) (QhRef.mk StateId.usb1 0))
          ∧ ¬ inArenas (mkLayout 0 64 32).usb2 64 32
            (qhRefAddr (mkLayout 0 64 32) (QhRef.mk StateId.usb1 0)))
      ∧ (inArenas (mkLayout 0 64 32).usb1 64 32
            (tdRefAddr (mkLayout 0 64 32) (TdRef.mk StateId.usb1 0))
          ∧ ¬ inArenas (mkLayout 0 64 32).usb2 64 32
            (tdRefAddr (mkLayout 0 64 32) (TdRef.mk StateId.usb1 0)))
      ∧ (inArenas (mkLayout 0 64 32).usb2 64 32
            (qhRefAddr (mkLayout 0 64 32) (QhRef.mk StateId.usb2 0))
          ∧ ¬ inArenas (mkLayout 0 64 32).usb1 64 32
            (qhRefAddr (mkLayout 0 64 32) (QhRef.mk StateId.usb2 0)))
      ∧ (inArenas (mkLayout 0 64 32).usb2 64 32
            (tdRefAddr (mkLayout 0 64 32) (TdRef.mk StateId.usb2 0))
          ∧ ¬ inArenas (mkLayout 0 64 32).usb1 64 32
            (tdRefAddr (mkLayout 0 64 32) (TdRef.mk StateId.usb2 0)))) :=
  ⟨by decide, by decide, by decide,
    instance_arenas_disjoint 0 64 32 0 0 (by decide) (by decide) (by decide)⟩
